import Mathlib

/-!
Verification of the client-side decision layer of the counterparty command
line client, embedded from counterpartycli/client.py: network parameter
resolution in set_options, the market snapshot normalizer (format_order,
format_bet, format_feed, format_order_match and the feed-digest loop of
market), and the signing and broadcast orchestrator sign_tx.
-/

namespace CounterpartyClient

/-- Protocol constants imported by the client from the external library
configuration module; the client only selects among them, so they are
opaque inputs to the resolver of set_options. -/
structure ChainConstants where
  MAGIC_BYTES_MAINNET : Nat
  MAGIC_BYTES_TESTNET : Nat
  ADDRESSVERSION_MAINNET : Nat
  ADDRESSVERSION_TESTNET : Nat
  BLOCK_FIRST_MAINNET : Int
  BLOCK_FIRST_MAINNET_TESTCOIN : Int
  BLOCK_FIRST_TESTNET : Int
  BLOCK_FIRST_TESTNET_TESTCOIN : Int
  BURN_START_MAINNET : Int
  BURN_START_MAINNET_TESTCOIN : Int
  BURN_START_TESTNET : Int
  BURN_START_TESTNET_TESTCOIN : Int
  BURN_END_MAINNET : Int
  BURN_END_MAINNET_TESTCOIN : Int
  BURN_END_TESTNET : Int
  BURN_END_TESTNET_TESTCOIN : Int
  UNSPENDABLE_MAINNET : String
  UNSPENDABLE_TESTNET : String

/-- The bundle of network parameters assigned by the final block of
set_options (client.py lines 362 to 390). -/
structure NetworkParameterBundle where
  magicBytes : Nat
  addressVersion : Nat
  blockFirst : Int
  burnStart : Int
  burnEnd : Int
  unspendable : String
  deriving DecidableEq

/-- Embedding of the network-parameter block of set_options (client.py
lines 362 to 390): from the testnet and testcoin flags, select the magic
bytes, address version, first block, burn window and unspendable address
from the constant table. -/
def set_options_network (c : ChainConstants) (testnet testcoin : Bool) :
    NetworkParameterBundle :=
  if testnet then
    if testcoin then
      ⟨c.MAGIC_BYTES_TESTNET, c.ADDRESSVERSION_TESTNET, c.BLOCK_FIRST_TESTNET_TESTCOIN,
       c.BURN_START_TESTNET_TESTCOIN, c.BURN_END_TESTNET_TESTCOIN, c.UNSPENDABLE_TESTNET⟩
    else
      ⟨c.MAGIC_BYTES_TESTNET, c.ADDRESSVERSION_TESTNET, c.BLOCK_FIRST_TESTNET,
       c.BURN_START_TESTNET, c.BURN_END_TESTNET, c.UNSPENDABLE_TESTNET⟩
  else
    if testcoin then
      ⟨c.MAGIC_BYTES_MAINNET, c.ADDRESSVERSION_MAINNET, c.BLOCK_FIRST_MAINNET_TESTCOIN,
       c.BURN_START_MAINNET_TESTCOIN, c.BURN_END_MAINNET_TESTCOIN, c.UNSPENDABLE_MAINNET⟩
    else
      ⟨c.MAGIC_BYTES_MAINNET, c.ADDRESSVERSION_MAINNET, c.BLOCK_FIRST_MAINNET,
       c.BURN_START_MAINNET, c.BURN_END_MAINNET, c.UNSPENDABLE_MAINNET⟩

/-- Modelled from the spec: script.b58_digits from the external script
library (absent from the sources) is the standard Base58 alphabet used to
vet a wallet-import-format private key. -/
def b58_digits : String :=
  "123456789ABCDEFGHJKLMNPQRSTUVWXYZabcdefghijkmnopqrstuvwxyz"

/-- Reasons for a failed signing flow, following the spec taxonomy. -/
inductive FailReason where
  | InvalidPrivateKey
  | SigningToolUnavailable
  deriving DecidableEq

/-- Outcome of one pass of the signing and broadcast orchestrator. -/
inductive SigningOutcome where
  | DeferredToManualMultisig
  | Declined
  | Broadcast (txid : String)
  | Failed (reason : FailReason)
  deriving DecidableEq

/-- Record of which collaborators a sign_tx run invoked: the wallet signing
call, the index passed to each external-tool invocation, and the network
submission. -/
structure Trace where
  walletSignInvoked : Bool
  toolIndices : List Nat
  broadcastInvoked : Bool
  deriving DecidableEq

/-- The empty trace: no collaborator was invoked. -/
def Trace.empty : Trace := ⟨false, [], false⟩

/-- Environment of collaborators and operator responses consumed by
sign_tx: the multisig test from the script library, the reply to the
confirmation prompt, the wallet ownership test, the wallet signing call,
the operator-entered private key, the external signing tool (returning
none when the invocation raises), fuel bounding the unbounded source loop,
and the network submission call. -/
structure SignEnv where
  is_multisig : String → Bool
  confirm : String
  is_mine : String → Bool
  sign_raw_transaction : String → String
  private_key_wif : String
  pybtctool_sign : String → Nat → String → Option String
  toolFuel : Nat
  send_raw_transaction : String → String

/-- Embedding of the pybtctool loop of sign_tx (client.py lines 237 to
244): starting from the unsigned hex with the index variable at 0,
repeatedly invoke the tool on the current hex, stopping when the tool
raises. The index is threaded exactly as in the source, which never
increments it. The source loop carries no bound of its own, so the
embedding takes explicit fuel; the second component records the index
passed to each tool invocation. -/
def signLoop (tool : String → Nat → String → Option String) (key : String) :
    Nat → String → Nat → String × List Nat
  | 0, tx, _ => (tx, [])
  | fuel + 1, tx, i =>
    match tool tx i key with
    | Option.none => (tx, [i])
    | Option.some tx2 =>
      let r := signLoop tool key fuel tx2 i
      (r.1, i :: r.2)

/-- Embedding of sign_tx (client.py lines 216 to 253). A multisig source
defers to manual handling; otherwise the operator must answer exactly y to
proceed; a wallet-owned source is signed by the wallet, any other source
goes through the external-key path, whose key must be non-empty and all
Base58 and whose tool loop must change the bytes. The result pairs the
outcome with the trace of collaborator invocations. -/
def sign_tx (env : SignEnv) (unsigned_tx_hex source : String) :
    SigningOutcome × Trace :=
  if env.is_multisig source then
    (SigningOutcome.DeferredToManualMultisig, Trace.empty)
  else if env.confirm = "y" then
    if env.is_mine source then
      let signed_tx_hex := env.sign_raw_transaction unsigned_tx_hex
      let tx_hash := env.send_raw_transaction signed_tx_hex
      (SigningOutcome.Broadcast tx_hash, ⟨true, [], true⟩)
    else if env.private_key_wif = "" then
      (SigningOutcome.Failed FailReason.InvalidPrivateKey, Trace.empty)
    else if env.private_key_wif.data.any (fun ch => !(b58_digits.data.contains ch)) then
      (SigningOutcome.Failed FailReason.InvalidPrivateKey, Trace.empty)
    else
      let r := signLoop env.pybtctool_sign env.private_key_wif env.toolFuel unsigned_tx_hex 0
      if r.1 ≠ unsigned_tx_hex then
        let signed_tx_hex := (r.1).dropRight 1
        let tx_hash := env.send_raw_transaction signed_tx_hex
        (SigningOutcome.Broadcast tx_hash, ⟨false, r.2, true⟩)
      else
        (SigningOutcome.Failed FailReason.SigningToolUnavailable, ⟨false, r.2, false⟩)
  else
    (SigningOutcome.Declined, Trace.empty)

/-- Modelled from the spec: the unit divisor for fixed-point monetary
quantities (config.UNIT, absent from the sources) is 10^8. -/
def UNIT : Int := 100000000

/-- Decimal division as performed by the source on raw record fields: the
decimal library raises on a zero divisor, embedded as a fallible
operation. -/
def divD (a b : Rat) : Option Rat :=
  if b = 0 then Option.none else Option.some (a / b)

/-- Modelled from the spec: util.value_out (absent from the sources)
renders a decimal for display; on the already-scaled ratio kinds (price,
odds, leverage) it returns the value itself, and on asset quantities it
scales the fixed-point value to human units by the unit divisor. -/
def value_out (v : Rat) (kind : String) : Rat :=
  if kind = "price" ∨ kind = "odds" ∨ kind = "leverage" then v
  else v / (UNIT : Rat)

/-- A raw order record as returned by the ledger query collaborator. -/
structure Order where
  tx_hash : String
  give_asset : String
  give_quantity : Int
  give_remaining : Int
  get_asset : String
  get_quantity : Int
  get_remaining : Int
  expire_index : Int
  fee_required : Int
  fee_provided : Int
  deriving DecidableEq

/-- The row produced by format_order (client.py line 125). -/
structure OrderRow where
  give_remaining : Rat
  give_asset : String
  price : Rat
  price_assets : String
  fee_required : String
  fee_provided : String
  time_left : Int
  tx_hash : String
  deriving DecidableEq

/-- Embedding of format_order (client.py lines 110 to 125); the chain
height parameter stands for the last_db_block_index query. The decimal
division forming the price is fallible, so the row is optional. -/
def format_order (chainHeight : Int) (o : Order) : Option OrderRow :=
  let give_remaining := value_out (o.give_remaining : Rat) o.give_asset
  (if o.get_asset < o.give_asset then
    (divD (o.get_quantity : Rat) (o.give_quantity : Rat)).map fun q =>
      (value_out q "price", o.get_asset ++ "/" ++ o.give_asset ++ " ask")
  else
    (divD (o.give_quantity : Rat) (o.get_quantity : Rat)).map fun q =>
      (value_out q "price", o.give_asset ++ "/" ++ o.get_asset ++ " bid")).map
  fun price =>
    ⟨give_remaining, o.give_asset, price.1, price.2,
     toString ((o.fee_required : Rat) / (UNIT : Rat)),
     toString ((o.fee_provided : Rat) / (UNIT : Rat)),
     o.expire_index - chainHeight, o.tx_hash⟩

/-- A raw bet record as returned by the ledger query collaborator. -/
structure Bet where
  tx_hash : String
  bet_type : Nat
  feed_address : String
  deadline : Int
  target_value : Rat
  leverage : Int
  wager_quantity : Int
  wager_remaining : Int
  counterwager_quantity : Int
  expire_index : Int
  deriving DecidableEq

/-- Modelled from the spec: the bet-type code-to-name table of the
external library utilities (absent from the sources); a lookup outside
the table raises in the source, embedded as a fallible map. -/
def BET_TYPE_NAME : Nat → Option String
  | 0 => Option.some "BullCFD"
  | 1 => Option.some "BearCFD"
  | 2 => Option.some "Equal"
  | 3 => Option.some "NotEqual"
  | _ => Option.none

/-- Modelled from the spec: isodt from the external logging library
renders a timestamp as an ISO date string; its exact text is immaterial
to every claim, so the embedding renders the integer. -/
def isodt (t : Int) : String := toString t

/-- The row produced by format_bet (client.py line 139). -/
structure BetRow where
  bet_type_name : String
  feed_address : String
  deadline : String
  target_value : Option Rat
  leverage : Option Rat
  wager : String
  odds : Rat
  time_left : Int
  tx_hash : String
  deriving DecidableEq

/-- Embedding of format_bet (client.py lines 127 to 139): the odds are a
decimal division by the raw wager quantity and the bet-type name is a
dictionary access, both fallible; a zero target value and a zero leverage
are reported as absent. -/
def format_bet (chainHeight : Int) (b : Bet) : Option BetRow :=
  (divD (b.counterwager_quantity : Rat) (b.wager_quantity : Rat)).bind fun odds =>
  (BET_TYPE_NAME b.bet_type).map fun bet_type_name =>
    ⟨bet_type_name, b.feed_address, isodt b.deadline,
     (if b.target_value = 0 then Option.none else Option.some b.target_value),
     (if b.leverage = 0 then Option.none
      else Option.some (value_out ((b.leverage : Rat) / 5040) "leverage")),
     toString ((b.wager_remaining : Rat) / (UNIT : Rat)) ++ " XCP",
     value_out odds "odds",
     b.expire_index - chainHeight, b.tx_hash⟩

/-- A raw broadcast (feed entry) record as returned by the ledger query
collaborator. -/
structure Feed where
  source : String
  timestamp : Int
  text : String
  value : Rat
  fee_fraction_int : Int
  deriving DecidableEq

/-- The row produced by format_feed (client.py line 152). -/
structure FeedRow where
  source : String
  timestamp : String
  text : String
  value : Rat
  fee_fraction : Rat
  deriving DecidableEq

/-- Embedding of format_feed (client.py lines 146 to 152): empty feed
text is replaced by the locked marker; the fee fraction is scaled by
10^8. -/
def format_feed (f : Feed) : FeedRow :=
  ⟨f.source, isodt f.timestamp,
   (if f.text = "" then "<Locked>" else f.text),
   f.value, (f.fee_fraction_int : Rat) / 100000000⟩

/-- Modelled from the spec: make_id from the external library utilities
(absent from the sources) forms the composite order-match identifier as a
fixed, order-independent combination of the two transaction hashes; the
embedding combines them under a canonical ordering. -/
def make_id (hash1 hash2 : String) : String :=
  if hash1 ≤ hash2 then hash1 ++ hash2 else hash2 ++ hash1

/-- A raw order-match record as returned by the ledger query
collaborator. -/
structure OrderMatch where
  tx0_hash : String
  tx1_hash : String
  match_expire_index : Int
  deriving DecidableEq

/-- Embedding of format_order_match (client.py lines 141 to 144); the
chain height parameter stands for the last_db_block_index query. -/
def format_order_match (chainHeight : Int) (m : OrderMatch) : String × Int :=
  (make_id m.tx0_hash m.tx1_hash, m.match_expire_index - chainHeight)

/-- Modelled from the spec: config.TWO_WEEKS (absent from the sources) is
1209600 seconds. -/
def TWO_WEEKS : Int := 1209600

/-- Embedding of the feed-digest loop of market (client.py lines 199 to
212): walk the broadcasts, skip entries older than the two-week window,
and keep an entry only when its source address has not been seen yet. -/
def feedDigest (now : Int) : List Feed → List String → List Feed
  | [], _ => []
  | b :: rest, seen =>
    if b.timestamp + TWO_WEEKS < now then
      feedDigest now rest seen
    else if b.source ∈ seen then
      feedDigest now rest seen
    else
      b :: feedDigest now rest (b.source :: seen)

/-- The rows of the feeds table printed by market: the digest entries
passed through format_feed. -/
def marketFeedRows (now : Int) (broadcasts : List Feed) : List FeedRow :=
  (feedDigest now broadcasts []).map format_feed

/-!
Concrete demonstration values used by the witness theorems below.
-/

/-- A demonstration constant table for the resolver; the concrete numbers
only matter through the relations assumed by the resolver theorem. -/
def demoConstants : ChainConstants :=
  ⟨3652501241, 186604825, 0, 111, 278270, 278270, 154908, 154908,
   278310, 278310, 154908, 154908, 283810, 2500000, 4017708, 9999999,
   "1CounterpartyXXXXXXXXXXXXXXXUWLpVr", "mvCounterpartyXXXXXXXXXXXXXXW24Hef"⟩

/-- Environment whose source address is a multisig address. -/
def multisigEnv : SignEnv :=
  ⟨fun _ => true, "y", fun _ => false, id, "5HueCG", fun _ _ _ => Option.none, 3,
   fun _ => "txid"⟩

/-- Environment where the operator enters a key containing the character
outside the Base58 alphabet. -/
def badKeyEnv : SignEnv :=
  ⟨fun _ => false, "y", fun _ => false, id, "bad!key", fun _ _ _ => Option.none, 3,
   fun _ => "txid"⟩

/-- Environment where the operator answers the confirmation prompt with an
uppercase letter. -/
def declineEnv : SignEnv :=
  ⟨fun _ => false, "Y", fun _ => true, id, "5HueCG", fun _ _ _ => Option.none, 3,
   fun _ => "txid"⟩

/-- Environment whose external signing tool always raises. -/
def noToolEnv : SignEnv :=
  ⟨fun _ => false, "y", fun _ => false, id, "5HueCG", fun _ _ _ => Option.none, 2,
   fun _ => "txid"⟩

/-- Environment whose external signing tool signs the unsigned hex aa into
bb once and raises on anything else, standing for a two-input transaction
whose first input is signable. -/
def repeatToolEnv : SignEnv :=
  ⟨fun _ => false, "y", fun _ => false, id, "5HueCG",
   fun tx _ _ => if tx = "aa" then Option.some "bb" else Option.none, 5,
   fun _ => "txid"⟩

/-- A demonstration order: gives 100 of asset BBB for 50 of asset AAA. -/
def demoOrder : Order :=
  ⟨"deadbeef", "BBB", 100, 100, "AAA", 50, 50, 310000, 10000, 10000⟩

/-- A demonstration bet with non-zero wager and zero sentinels. -/
def demoBet : Bet := ⟨"cafe2", 1, "feedaddr", 1000, 0, 0, 7, 7, 5, 310000⟩

/-- A well-typed bet whose wager quantity is the zero sentinel. -/
def zeroWagerBet : Bet := ⟨"cafe", 0, "feedaddr", 1000, 0, 0, 0, 0, 5, 310000⟩

/-- Demonstration feed entries, newest first. -/
def feedA : Feed := ⟨"addrA", 1990000, "hello", 0, 0⟩

/-- An older entry from the same address as feedA. -/
def feedA2 : Feed := ⟨"addrA", 1980000, "older", 0, 0⟩

/-- An entry far outside the two-week window. -/
def feedB : Feed := ⟨"addrB", 100, "ancient", 0, 0⟩

/-!
Theorems.
-/

/-- Claim C1: the network parameter resolver is a total deterministic
function of the two booleans; holding the network flag fixed and flipping
the alternate-asset (testcoin) flag changes only the burn-window
boundaries, leaving address version, magic bytes, unspendable address and
first valid block unchanged; at main network with the normal asset the
output matches the designated mainnet constants, and flipping either flag
changes at least the burn window. The hypotheses are the facts the spec
states about the external constant table, which is absent from the
sources. -/
theorem network_resolver_decision_table (c : ChainConstants)
    (hbfM : c.BLOCK_FIRST_MAINNET_TESTCOIN = c.BLOCK_FIRST_MAINNET)
    (hbfT : c.BLOCK_FIRST_TESTNET_TESTCOIN = c.BLOCK_FIRST_TESTNET)
    (hburnM : (c.BURN_START_MAINNET_TESTCOIN, c.BURN_END_MAINNET_TESTCOIN) ≠
      (c.BURN_START_MAINNET, c.BURN_END_MAINNET))
    (hburnT : (c.BURN_START_TESTNET_TESTCOIN, c.BURN_END_TESTNET_TESTCOIN) ≠
      (c.BURN_START_TESTNET, c.BURN_END_TESTNET))
    (hburnNet : (c.BURN_START_TESTNET, c.BURN_END_TESTNET) ≠
      (c.BURN_START_MAINNET, c.BURN_END_MAINNET)) :
    (∀ tn ta : Bool, ∃! b : NetworkParameterBundle, set_options_network c tn ta = b) ∧
    (∀ tn : Bool,
      (set_options_network c tn true).addressVersion =
        (set_options_network c tn false).addressVersion ∧
      (set_options_network c tn true).magicBytes =
        (set_options_network c tn false).magicBytes ∧
      (set_options_network c tn true).unspendable =
        (set_options_network c tn false).unspendable ∧
      (set_options_network c tn true).blockFirst =
        (set_options_network c tn false).blockFirst ∧
      ((set_options_network c tn true).burnStart,
        (set_options_network c tn true).burnEnd) ≠
        ((set_options_network c tn false).burnStart,
          (set_options_network c tn false).burnEnd)) ∧
    set_options_network c false false =
      ⟨c.MAGIC_BYTES_MAINNET, c.ADDRESSVERSION_MAINNET, c.BLOCK_FIRST_MAINNET,
       c.BURN_START_MAINNET, c.BURN_END_MAINNET, c.UNSPENDABLE_MAINNET⟩ ∧
    ((set_options_network c true false).burnStart,
      (set_options_network c true false).burnEnd) ≠
      ((set_options_network c false false).burnStart,
        (set_options_network c false false).burnEnd) ∧
    ((set_options_network c false true).burnStart,
      (set_options_network c false true).burnEnd) ≠
      ((set_options_network c false false).burnStart,
        (set_options_network c false false).burnEnd) := by
  refine ⟨fun tn ta => ⟨set_options_network c tn ta, rfl, fun b hb => hb.symm⟩,
    ?_, rfl, hburnNet, hburnM⟩
  intro tn
  cases tn
  · exact ⟨rfl, rfl, rfl, hbfM, hburnM⟩
  · exact ⟨rfl, rfl, rfl, hbfT, hburnT⟩

/-- Witness for the resolver theorem at the demonstration constant
table. -/
theorem network_resolver_decision_table_witness :
    demoConstants.BLOCK_FIRST_MAINNET_TESTCOIN = demoConstants.BLOCK_FIRST_MAINNET ∧
    ((set_options_network demoConstants false true).burnStart,
      (set_options_network demoConstants false true).burnEnd) ≠
      ((set_options_network demoConstants false false).burnStart,
        (set_options_network demoConstants false false).burnEnd) :=
  ⟨rfl, (network_resolver_decision_table demoConstants rfl rfl (by decide) (by decide)
    (by decide)).2.2.2.2⟩

/-- Claim C2: for a multisig source address, sign_tx terminates at once
with the manual-multisig deferral, invoking neither the wallet signing
capability, nor the external tool, nor the network submission. -/
theorem multisig_deferred (env : SignEnv) (u s : String)
    (h : env.is_multisig s = true) :
    sign_tx env u s = (SigningOutcome.DeferredToManualMultisig, Trace.empty) := by
  simp [sign_tx, h]

/-- Witness for the multisig deferral at a concrete environment. -/
theorem multisig_deferred_witness :
    sign_tx multisigEnv "rawhex" "addr" =
      (SigningOutcome.DeferredToManualMultisig, Trace.empty) :=
  multisig_deferred multisigEnv "rawhex" "addr" rfl

/-- Claim C3: on a confirmed request whose source is neither multisig nor
wallet-owned, an operator key that is empty or has a character outside the
Base58 alphabet makes sign_tx fail with InvalidPrivateKey, with no wallet
signing, no tool invocation and no network submission. -/
theorem invalid_private_key_rejected (env : SignEnv) (u s : String)
    (hms : env.is_multisig s = false)
    (hc : env.confirm = "y")
    (hm : env.is_mine s = false)
    (hk : env.private_key_wif = "" ∨
      env.private_key_wif.data.any (fun ch => !(b58_digits.data.contains ch)) = true) :
    sign_tx env u s = (SigningOutcome.Failed FailReason.InvalidPrivateKey, Trace.empty) := by
  simp only [sign_tx]
  rw [if_neg (show ¬env.is_multisig s = true by simp [hms]), if_pos hc,
    if_neg (show ¬env.is_mine s = true by simp [hm])]
  by_cases he : env.private_key_wif = ""
  · rw [if_pos he]
  · rcases hk with hk | hk
    · exact absurd hk he
    · rw [if_neg he, if_pos hk]

/-- Witness for the invalid-key rejection with a key containing an
exclamation mark. -/
theorem invalid_private_key_rejected_witness :
    sign_tx badKeyEnv "rawhex" "addr" =
      (SigningOutcome.Failed FailReason.InvalidPrivateKey, Trace.empty) :=
  invalid_private_key_rejected badKeyEnv "rawhex" "addr" rfl rfl rfl (Or.inr (by decide))

/-- Claim C6: in the external-key path, when the bytes produced by the
signing loop equal the original unsigned bytes, sign_tx fails with
SigningToolUnavailable and the network submission is never invoked. -/
theorem unchanged_bytes_tool_unavailable (env : SignEnv) (u s : String)
    (hms : env.is_multisig s = false)
    (hc : env.confirm = "y")
    (hm : env.is_mine s = false)
    (hne : env.private_key_wif ≠ "")
    (hb58 : env.private_key_wif.data.any (fun ch => !(b58_digits.data.contains ch)) = false)
    (hsame : (signLoop env.pybtctool_sign env.private_key_wif env.toolFuel u 0).1 = u) :
    sign_tx env u s =
      (SigningOutcome.Failed FailReason.SigningToolUnavailable,
       ⟨false, (signLoop env.pybtctool_sign env.private_key_wif env.toolFuel u 0).2,
        false⟩) := by
  simp only [sign_tx]
  rw [if_neg (show ¬env.is_multisig s = true by simp [hms]), if_pos hc,
    if_neg (show ¬env.is_mine s = true by simp [hm]), if_neg hne,
    if_neg (show ¬(env.private_key_wif.data.any
      (fun ch => !(b58_digits.data.contains ch)) = true) by
        rw [hb58]; exact Bool.false_ne_true),
    if_neg (show ¬((signLoop env.pybtctool_sign env.private_key_wif env.toolFuel u 0).1 ≠ u)
      from fun hne2 => hne2 hsame)]

/-- Witness for the unchanged-bytes failure with a tool that always
raises. -/
theorem unchanged_bytes_tool_unavailable_witness :
    sign_tx noToolEnv "rawhex" "addr" =
      (SigningOutcome.Failed FailReason.SigningToolUnavailable, ⟨false, [0], false⟩) :=
  unchanged_bytes_tool_unavailable noToolEnv "rawhex" "addr" rfl rfl rfl
    (by decide) (by decide) rfl

/-- Helper: the signing loop passes the same index to every tool
invocation it makes. -/
theorem signLoop_indices_eq (tool : String → Nat → String → Option String)
    (key : String) :
    ∀ (fuel : Nat) (tx : String) (i : Nat), ∀ j ∈ (signLoop tool key fuel tx i).2, j = i := by
  intro fuel
  induction fuel with
  | zero => intro tx i j hj; simp [signLoop] at hj
  | succ n ih =>
    intro tx i j hj
    simp only [signLoop] at hj
    cases htool : tool tx i key with
    | none =>
      rw [htool] at hj
      simpa using hj
    | some tx2 =>
      rw [htool] at hj
      simp only [List.mem_cons] at hj
      rcases hj with rfl | hj
      · rfl
      · exact ih tx2 i j hj

/-- Claim C7: evaluation of the external-key path at a run where the tool
succeeds once. The loop feeds its previous output back in, but the input
index passed to the tool is 0 on every invocation, because the index
variable in the source is initialised to 0 and never incremented: the
recorded indices are 0, 0 rather than 0, 1, and in general every recorded
index is 0. -/
theorem signing_tool_index_stuck_at_zero :
    (sign_tx repeatToolEnv "aa" "src").2.toolIndices = [0, 0] ∧
    ∀ (env : SignEnv) (u s : String),
      ((sign_tx env u s).2.toolIndices.all fun j => j == 0) = true := by
  constructor
  · decide
  · intro env u s
    rw [List.all_eq_true]
    intro j hj
    rw [beq_iff_eq]
    simp only [sign_tx] at hj
    split_ifs at hj <;>
      first
        | exact absurd hj (List.not_mem_nil j)
        | exact signLoop_indices_eq env.pybtctool_sign env.private_key_wif
            env.toolFuel u 0 j hj

/-- Claim C10: for a non-multisig source, the flow passes the confirmation
gate only when the operator answer is exactly the lowercase y; any other
answer yields Declined with no collaborator invocation. -/
theorem confirmation_gate (env : SignEnv) (u s : String)
    (hms : env.is_multisig s = false) :
    (env.confirm ≠ "y" → sign_tx env u s = (SigningOutcome.Declined, Trace.empty)) ∧
    ((sign_tx env u s).2 ≠ Trace.empty → env.confirm = "y") := by
  by_cases hc : env.confirm = "y"
  · exact ⟨fun h => absurd hc h, fun _ => hc⟩
  · constructor
    · intro _
      simp [sign_tx, hms, hc]
    · intro h
      exact absurd (by simp [sign_tx, hms, hc]) h

/-- Witness for the confirmation gate at the answer uppercase Y. -/
theorem confirmation_gate_witness :
    declineEnv.confirm = "Y" ∧
    sign_tx declineEnv "rawhex" "addr" = (SigningOutcome.Declined, Trace.empty) :=
  ⟨rfl, (confirmation_gate declineEnv "rawhex" "addr" rfl).1 (by decide)⟩

/-- Claim C4: for a raw order with non-zero give and get quantities,
format_order applies the lexicographic tie-break exactly: when the get
asset sorts strictly before the give asset, the price is the get quantity
over the give quantity with the pair labeled get over give ask; otherwise
the price is the give quantity over the get quantity with the pair labeled
give over get bid. -/
theorem order_price_orientation (chainHeight : Int) (o : Order)
    (hgive : o.give_quantity ≠ 0) (hget : o.get_quantity ≠ 0) :
    ∃ row : OrderRow, format_order chainHeight o = Option.some row ∧
      (o.get_asset < o.give_asset →
        row.price = (o.get_quantity : Rat) / (o.give_quantity : Rat) ∧
        row.price_assets = o.get_asset ++ "/" ++ o.give_asset ++ " ask") ∧
      (¬o.get_asset < o.give_asset →
        row.price = (o.give_quantity : Rat) / (o.get_quantity : Rat) ∧
        row.price_assets = o.give_asset ++ "/" ++ o.get_asset ++ " bid") := by
  have hgq : (o.give_quantity : Rat) ≠ 0 := Int.cast_ne_zero.mpr hgive
  have htq : (o.get_quantity : Rat) ≠ 0 := Int.cast_ne_zero.mpr hget
  by_cases h : o.get_asset < o.give_asset
  · refine ⟨⟨value_out (o.give_remaining : Rat) o.give_asset, o.give_asset,
      (o.get_quantity : Rat) / (o.give_quantity : Rat),
      o.get_asset ++ "/" ++ o.give_asset ++ " ask",
      toString ((o.fee_required : Rat) / (UNIT : Rat)),
      toString ((o.fee_provided : Rat) / (UNIT : Rat)),
      o.expire_index - chainHeight, o.tx_hash⟩, ?_, fun _ => ⟨rfl, rfl⟩,
      fun hc => absurd h hc⟩
    simp only [format_order, divD]
    rw [if_pos h, if_neg hgq]
    simp [value_out]
  · refine ⟨⟨value_out (o.give_remaining : Rat) o.give_asset, o.give_asset,
      (o.give_quantity : Rat) / (o.get_quantity : Rat),
      o.give_asset ++ "/" ++ o.get_asset ++ " bid",
      toString ((o.fee_required : Rat) / (UNIT : Rat)),
      toString ((o.fee_provided : Rat) / (UNIT : Rat)),
      o.expire_index - chainHeight, o.tx_hash⟩, ?_, fun hc => absurd hc h,
      fun _ => ⟨rfl, rfl⟩⟩
    simp only [format_order, divD]
    rw [if_neg h, if_neg htq]
    simp [value_out]

/-- Witness for the price orientation at the demonstration order, whose
get asset AAA sorts before its give asset BBB: the price is one half and
the label is AAA/BBB ask. -/
theorem order_price_orientation_witness :
    (∃ row : OrderRow, format_order 300000 demoOrder = Option.some row ∧
      (demoOrder.get_asset < demoOrder.give_asset →
        row.price = (demoOrder.get_quantity : Rat) / (demoOrder.give_quantity : Rat) ∧
        row.price_assets = demoOrder.get_asset ++ "/" ++ demoOrder.give_asset ++ " ask") ∧
      (¬demoOrder.get_asset < demoOrder.give_asset →
        row.price = (demoOrder.give_quantity : Rat) / (demoOrder.get_quantity : Rat) ∧
        row.price_assets = demoOrder.give_asset ++ "/" ++ demoOrder.get_asset ++ " bid")) ∧
    (format_order 300000 demoOrder).map OrderRow.price = Option.some (1 / 2) ∧
    (format_order 300000 demoOrder).map OrderRow.price_assets = Option.some "AAA/BBB ask" := by
  have hlt : demoOrder.get_asset < demoOrder.give_asset := by
    show ("AAA" : String) < "BBB"
    rw [String.lt_iff_toList_lt]
    decide
  obtain ⟨row, hrow, hask, hbid⟩ :=
    order_price_orientation 300000 demoOrder (by decide) (by decide)
  obtain ⟨hp, hl⟩ := hask hlt
  refine ⟨⟨row, hrow, hask, hbid⟩, ?_, ?_⟩
  · rw [hrow]
    simp only [Option.map_some']
    rw [hp]
    norm_num [demoOrder]
  · rw [hrow]
    simp only [Option.map_some']
    rw [hl]
    rfl

/-- Claim C5: the composite order-match identifier is order-independent in
the two transaction hashes, both for the modelled make_id and through
format_order_match. -/
theorem order_match_id_symmetric (h1 h2 : String) :
    make_id h1 h2 = make_id h2 h1 ∧
    ∀ (chainHeight e : Int),
      (format_order_match chainHeight ⟨h1, h2, e⟩).1 =
        (format_order_match chainHeight ⟨h2, h1, e⟩).1 := by
  have hcomm : make_id h1 h2 = make_id h2 h1 := by
    unfold make_id
    rcases le_total h1 h2 with h | h
    · by_cases h21 : h2 ≤ h1
      · rw [if_pos h, if_pos h21, le_antisymm h h21]
      · rw [if_pos h, if_neg h21]
    · by_cases h12 : h1 ≤ h2
      · rw [if_pos h12, if_pos h, le_antisymm h12 h]
      · rw [if_neg h12, if_pos h]
  exact ⟨hcomm, fun chainHeight e => hcomm⟩

/-- Claim C9 counterexample: a well-typed raw bet whose wager quantity is
the zero sentinel makes format_bet fail, because the odds are computed by
a decimal division by the wager quantity before any sentinel handling; so
normalization is not total on well-typed records. -/
theorem format_bet_fails_on_zero_wager :
    format_bet 300000 zeroWagerBet = Option.none := rfl

/-- Claim C9 as amended: the normalizer treats the zero and empty
sentinels (zero target value, zero leverage, empty feed text) as absent
values rather than errors, and returns a result on every well-typed
record whose decimal divisors are non-zero: orders with non-zero give and
get quantities, bets with a non-zero wager quantity and a known bet type;
feed entries always normalize. -/
theorem normalizer_total_on_nonzero_divisors :
    (∀ (chainHeight : Int) (o : Order), o.give_quantity ≠ 0 → o.get_quantity ≠ 0 →
      (format_order chainHeight o).isSome = true) ∧
    (∀ (chainHeight : Int) (b : Bet), b.wager_quantity ≠ 0 →
      (BET_TYPE_NAME b.bet_type).isSome = true →
      ∃ row : BetRow, format_bet chainHeight b = Option.some row ∧
        (row.target_value = Option.none ↔ b.target_value = 0) ∧
        (row.leverage = Option.none ↔ b.leverage = 0)) ∧
    (∀ f : Feed, (format_feed f).text = if f.text = "" then "<Locked>" else f.text) := by
  refine ⟨?_, ?_, fun f => rfl⟩
  · intro chainHeight o hgive hget
    have hgq : (o.give_quantity : Rat) ≠ 0 := Int.cast_ne_zero.mpr hgive
    have htq : (o.get_quantity : Rat) ≠ 0 := Int.cast_ne_zero.mpr hget
    by_cases h : o.get_asset < o.give_asset
    · simp only [format_order, divD]
      rw [if_pos h, if_neg hgq]
      rfl
    · simp only [format_order, divD]
      rw [if_neg h, if_neg htq]
      rfl
  · intro chainHeight b hw hname
    have hwq : (b.wager_quantity : Rat) ≠ 0 := Int.cast_ne_zero.mpr hw
    obtain ⟨bet_type_name, hn⟩ := Option.isSome_iff_exists.mp hname
    refine ⟨⟨bet_type_name, b.feed_address, isodt b.deadline,
      (if b.target_value = 0 then Option.none else Option.some b.target_value),
      (if b.leverage = 0 then Option.none
       else Option.some (value_out ((b.leverage : Rat) / 5040) "leverage")),
      toString ((b.wager_remaining : Rat) / (UNIT : Rat)) ++ " XCP",
      value_out ((b.counterwager_quantity : Rat) / (b.wager_quantity : Rat)) "odds",
      b.expire_index - chainHeight, b.tx_hash⟩, ?_, ?_, ?_⟩
    · simp only [format_bet, divD]
      rw [if_neg hwq, hn]
      rfl
    · by_cases ht : b.target_value = 0 <;> simp [ht]
    · by_cases hl : b.leverage = 0 <;> simp [hl]

/-- Witness for the amended normalizer totality at the demonstration
order and bet. -/
theorem normalizer_total_witness :
    (format_order 300000 demoOrder).isSome = true ∧
    ∃ row : BetRow, format_bet 300000 demoBet = Option.some row ∧
      (row.target_value = Option.none ↔ demoBet.target_value = 0) ∧
      (row.leverage = Option.none ↔ demoBet.leverage = 0) :=
  ⟨normalizer_total_on_nonzero_divisors.1 300000 demoOrder (by decide) (by decide),
   normalizer_total_on_nonzero_divisors.2.1 300000 demoBet (by decide) (by decide)⟩

/-- Helper: every entry retained by the digest comes from the input list,
lies within the two-week window, and its address was not already seen. -/
theorem feedDigest_subset_window (now : Int) :
    ∀ (bs : List Feed) (seen : List String), ∀ b ∈ feedDigest now bs seen,
      b ∈ bs ∧ now ≤ b.timestamp + TWO_WEEKS ∧ b.source ∉ seen := by
  intro bs
  induction bs with
  | nil => intro seen b hb; simp [feedDigest] at hb
  | cons x rest ih =>
    intro seen b hb
    simp only [feedDigest] at hb
    by_cases h1 : x.timestamp + TWO_WEEKS < now
    · rw [if_pos h1] at hb
      obtain ⟨hmem, hw, hs⟩ := ih seen b hb
      exact ⟨List.mem_cons_of_mem _ hmem, hw, hs⟩
    · rw [if_neg h1] at hb
      by_cases h2 : x.source ∈ seen
      · rw [if_pos h2] at hb
        obtain ⟨hmem, hw, hs⟩ := ih seen b hb
        exact ⟨List.mem_cons_of_mem _ hmem, hw, hs⟩
      · rw [if_neg h2] at hb
        rcases List.mem_cons.mp hb with rfl | hb2
        · exact ⟨List.mem_cons_self _ _, by omega, h2⟩
        · obtain ⟨hmem, hw, hs⟩ := ih _ b hb2
          exact ⟨List.mem_cons_of_mem _ hmem, hw,
            fun hseen => hs (List.mem_cons_of_mem _ hseen)⟩

/-- Helper: the digest never retains two entries with the same publishing
address. -/
theorem feedDigest_sources_nodup (now : Int) :
    ∀ (bs : List Feed) (seen : List String),
      ((feedDigest now bs seen).map Feed.source).Nodup := by
  intro bs
  induction bs with
  | nil => intro seen; simp [feedDigest]
  | cons x rest ih =>
    intro seen
    simp only [feedDigest]
    split_ifs with h1 h2
    · exact ih seen
    · exact ih seen
    · simp only [List.map_cons, List.nodup_cons]
      refine ⟨?_, ih _⟩
      intro hmem
      obtain ⟨b, hb, hbs⟩ := List.mem_map.mp hmem
      obtain ⟨-, -, hs⟩ := feedDigest_subset_window now rest _ b hb
      exact hs (by rw [hbs]; exact List.mem_cons_self _ _)

/-- Helper: for broadcasts in descending timestamp order, every in-window
entry whose address is not yet seen is represented in the digest by an
entry of the same address with a timestamp at least as large. -/
theorem feedDigest_covers (now : Int) :
    ∀ (bs : List Feed) (seen : List String),
      List.Pairwise (fun x y => y.timestamp ≤ x.timestamp) bs →
      ∀ b ∈ bs, now ≤ b.timestamp + TWO_WEEKS → b.source ∉ seen →
        ∃ b2 ∈ feedDigest now bs seen, b2.source = b.source ∧
          b.timestamp ≤ b2.timestamp := by
  intro bs
  induction bs with
  | nil => intro seen _ b hb; simp at hb
  | cons x rest ih =>
    intro seen hsorted b hb hw hs
    obtain ⟨hx, hrest⟩ := List.pairwise_cons.mp hsorted
    simp only [feedDigest]
    by_cases h1 : x.timestamp + TWO_WEEKS < now
    · rw [if_pos h1]
      rcases List.mem_cons.mp hb with rfl | hb2
      · omega
      · exact ih seen hrest b hb2 hw hs
    · rw [if_neg h1]
      by_cases h2 : x.source ∈ seen
      · rw [if_pos h2]
        rcases List.mem_cons.mp hb with rfl | hb2
        · exact absurd h2 hs
        · exact ih seen hrest b hb2 hw hs
      · rw [if_neg h2]
        by_cases hsrc : b.source = x.source
        · refine ⟨x, List.mem_cons_self _ _, hsrc.symm, ?_⟩
          rcases List.mem_cons.mp hb with rfl | hb2
          · exact le_refl _
          · exact hx b hb2
        · rcases List.mem_cons.mp hb with rfl | hb2
          · exact absurd rfl hsrc
          · obtain ⟨b2, hb2d, hbsrc, hble⟩ := ih (x.source :: seen) hrest b hb2 hw
              (fun hmem => (List.mem_cons.mp hmem).elim hsrc (fun h => hs h))
            exact ⟨b2, List.mem_cons_of_mem _ hb2d, hbsrc, hble⟩

/-- Claim C8: for feed entries delivered in descending timestamp order,
the digest contains only entries within the two-week window of 1209600
seconds before now, never two entries from one publishing address, and
for every address with an in-window entry it retains an entry of that
address whose timestamp is at least that of every in-window entry from
the address; an entry older than the window never appears, even when it
is the only entry from its address. -/
theorem feed_digest_policy (now : Int) (bs : List Feed)
    (hsorted : List.Pairwise (fun x y => y.timestamp ≤ x.timestamp) bs) :
    (∀ b ∈ feedDigest now bs [], b ∈ bs ∧ now - TWO_WEEKS ≤ b.timestamp) ∧
    ((feedDigest now bs []).map Feed.source).Nodup ∧
    (∀ b ∈ bs, now - TWO_WEEKS ≤ b.timestamp →
      ∃ b2 ∈ feedDigest now bs [], b2.source = b.source ∧
        b.timestamp ≤ b2.timestamp) := by
  refine ⟨?_, feedDigest_sources_nodup now bs [], ?_⟩
  · intro b hb
    obtain ⟨hmem, hw, -⟩ := feedDigest_subset_window now bs [] b hb
    exact ⟨hmem, by omega⟩
  · intro b hb hw
    exact feedDigest_covers now bs [] hsorted b hb (by omega) (List.not_mem_nil _)

/-- Witness for the feed digest policy at three demonstration entries:
two from one address inside the window, one ancient entry. -/
theorem feed_digest_policy_witness :
    ((feedDigest 2000000 [feedA, feedA2, feedB] []).map Feed.source).Nodup ∧
    ∃ b2 ∈ feedDigest 2000000 [feedA, feedA2, feedB] [],
      b2.source = feedA.source ∧ feedA.timestamp ≤ b2.timestamp :=
  ⟨(feed_digest_policy 2000000 [feedA, feedA2, feedB] (by decide)).2.1,
   (feed_digest_policy 2000000 [feedA, feedA2, feedB] (by decide)).2.2 feedA
     (List.mem_cons_self _ _) (by decide)⟩

end CounterpartyClient
